import Mathlib

/-!
Verification development for the vocabulary analysis engine of
`gauntlet-vocab-builder` (`api/services/vocabulary_analysis.py`,
`api/services/word_processing.py`, `api/models/analysis.py`,
`api/models/database.py`).

Python floats are modelled as rationals (`ℚ`); Python's built-in `round`
(banker's rounding, round half to even) is modelled exactly on rationals by
`pyRound`.  Machine strings are Lean `String`s; `str.lower()` is modelled by
ASCII lowercasing (`pyLower`), which covers the repository's ASCII lexicon.
Fallible code returns `Except`.  Python dicts are insertion-ordered
association lists.  Default arguments are passed explicitly (the services are
always called with the defaults: `min_word_length = 3` and all token filters
enabled).
-/

deriving instance DecidableEq for Except

namespace Vocab

/-- Round half to even on rationals, as Python's built-in `round` does on the
exact value: the nearer integer, ties going to the even neighbour. -/
def rhe (x : ℚ) : ℤ :=
if x - ⌊x⌋ < 1/2 then ⌊x⌋
else if x - ⌊x⌋ > 1/2 then ⌊x⌋ + 1
else if ⌊x⌋ % 2 = 0 then ⌊x⌋ else ⌊x⌋ + 1

/-- Python `round(q, n)`: round `q` to `n` decimal digits, half to even. -/
def pyRound (q : ℚ) (n : ℕ) : ℚ :=
(rhe (q * 10 ^ n) : ℚ) / 10 ^ n

/-- ASCII lowercasing, modelling Python `str.lower()` on the ASCII strings the
lexicon uses. -/
def pyLower (s : String) : String :=
⟨s.data.map Char.toLower⟩

/-! ## Data model

Mirrors `api/models/analysis.py` and the `grade_words` table of
`api/models/database.py`.  Unused table columns (`id`, `frequency_rank`,
`created_at`) are omitted; the engine never reads them.  The field `example`
of the Python models is called `example_` here (`example` is reserved in
Lean). -/

/-- The `WordCategory` enum of `api/models/analysis.py`. -/
inductive WordCategory where
  | BELOW
  | AT
  | ABOVE
  | UNKNOWN
deriving DecidableEq, Repr

/-- A row of the `grade_words` table (`GradeWord` in `api/models/database.py`).
The table declares `grade_level: int = Field(ge=6, le=12)`. -/
structure GradeWord where
  grade_level : Int
  word : String
  definition : String
  example_ : Option String
  subject : Option String
deriving DecidableEq, Repr

/-- The per-word value stored in the `word_map` dictionary built by
`map_words_to_grades` (grade_level / definition / example / subject). -/
structure GradeInfo where
  grade_level : Int
  definition : String
  example_ : Option String
  subject : Option String
deriving DecidableEq, Repr

/-- The value `map_words_to_grades` stores for a lexicon row. -/
def infoOfRow (r : GradeWord) : GradeInfo :=
{ grade_level := r.grade_level, definition := r.definition,
  example_ := r.example_, subject := r.subject }

/-- Failure of the lexicon provider: the database session raised while
executing the batched `grade_words` query in `map_words_to_grades`. -/
inductive LexiconError where
  | unavailable (msg : String)
deriving DecidableEq, Repr

/-- Lookup in a Python dict modelled as an insertion-ordered association
list: the first entry with the given key. -/
def wordMapLookup : List (String × GradeInfo) → String → Option GradeInfo
  | [], _ => none
  | p :: ps, w => if p.1 = w then some p.2 else wordMapLookup ps w

/-- One iteration of the `for grade_word in results` loop of
`map_words_to_grades` (lines 66-84): if the key is present keep the lowest
grade level (replacing in place preserves dict insertion order), otherwise
add the entry at the end. -/
def wordMapInsert (m : List (String × GradeInfo)) (r : GradeWord) : List (String × GradeInfo) :=
let word_key := pyLower r.word
match wordMapLookup m word_key with
| some info =>
  if r.grade_level < info.grade_level then
    m.map (fun p => if p.1 = word_key then (word_key, infoOfRow r) else p)
  else m
| none => m ++ [(word_key, infoOfRow r)]

/-- The `map_words_to_grades` function (lines 32-87).  The database session is
the lexicon provider: it either fails or returns the rows of `grade_words`;
the `select ... where word in unique_words` query is the filter.  Python's
`set` has no deterministic order, but `unique_words` is only used for
membership tests, so a deduplicated list is an exact model.  Note the
`if not words: return {}` early return happens before the query. -/
def map_words_to_grades (words : List String)
    (session : Except LexiconError (List GradeWord)) :
    Except LexiconError (List (String × GradeInfo)) :=
if words = [] then Except.ok []
else
  match session with
  | Except.error e => Except.error e
  | Except.ok rows =>
    let unique_words := (words.map pyLower).dedup
    let results := rows.filter (fun r => unique_words.contains r.word)
    Except.ok (results.foldl wordMapInsert [])

/-- The rows the batched query returns: those whose `word` column equals one
of the lowercased input words. -/
def selectRows (words : List String) (rows : List GradeWord) : List GradeWord :=
rows.filter (fun r => ((words.map pyLower).dedup).contains r.word)

/-- All grade levels a list of lexicon rows offers for the word form `w`. -/
def matchingGrades (rows : List GradeWord) (w : String) : List Int :=
rows.filterMap (fun r => if pyLower r.word = w then some r.grade_level else none)

/-- Minimum of a list of grades, `none` for the empty list. -/
def minOpt : List Int → Option Int
  | [] => none
  | g :: gs =>
    match minOpt gs with
    | none => some g
    | some m => some (min g m)

/-- Combine two optional minima. -/
def mergeMin (a b : Option Int) : Option Int :=
match a, b with
| none, b => b
| some x, none => some x
| some x, some y => some (min x y)

/-- The grade level `map_words_to_grades` assigns to the word form `w` when
the lexicon returns `rows`. -/
def assignedGrade (words : List String) (rows : List GradeWord) (w : String) : Option Int :=
match map_words_to_grades words (Except.ok rows) with
| Except.ok m => (wordMapLookup m w).map (fun i => i.grade_level)
| Except.error _ => none

/-- The `categorize_word` function of `vocabulary_analysis.py` (lines 90-112). -/
def categorize_word (word_grade : Option Int) (student_grade : Int) : WordCategory :=
match word_grade with
| none => WordCategory.UNKNOWN
| some g =>
  if g < student_grade then WordCategory.BELOW
  else if g = student_grade then WordCategory.AT
  else WordCategory.ABOVE

/-! ## Text normalisation (`api/services/word_processing.py`)

The spaCy model is an external linguistic oracle: it is modelled as a
function producing the token stream (`nlp` below).  The filtering loop of
`extract_words_from_text` (lines 103-134) is code of the repository and is
embedded faithfully. -/

/-- A spaCy token: the attributes `extract_words_from_text` reads. -/
structure SpacyTok where
  text : String
  lemma_form : String
  is_stop : Bool
  is_punct : Bool
  is_digit : Bool
  like_num : Bool
  is_space : Bool
deriving DecidableEq, Repr

/-- Python `not text or not text.strip()`: the string is empty or all
whitespace. -/
def isBlank (text : String) : Bool :=
text.data.all (fun c => c.isWhitespace)

/-- Python `re.search(r'[a-z]', word)` is not `None`. -/
def hasLowerAlpha (w : String) : Bool :=
w.data.any (fun c => 'a' ≤ c && c ≤ 'z')

/-- The `extract_words_from_text` function of `word_processing.py`
(lines 69-137), with the spaCy pipeline abstracted as `nlp`.  All boolean
filters are at their default `True`, as every caller in the repository uses
them. -/
def extract_words_from_text (nlp : String → List SpacyTok) (text : String)
    (min_length : ℕ) : List String :=
if isBlank text then []
else
  (nlp text).filterMap (fun token =>
    if token.is_stop then none
    else if token.is_punct then none
    else if token.is_digit || token.like_num then none
    else if token.is_space then none
    else
      let word := pyLower token.lemma_form
      if word.length < min_length then none
      else if ¬ hasLowerAlpha word then none
      else some word)

/-- Python `collections.Counter` materialised as a dict: keys in first
occurrence order, values the multiset counts. -/
def counter (ws : List String) : List (String × ℕ) :=
ws.foldl
  (fun acc w =>
    if acc.any (fun p => p.1 = w) then
      acc.map (fun p => if p.1 = w then (p.1, p.2 + 1) else p)
    else acc ++ [(w, 1)])
  []

/-- The `calculate_word_frequency` function of `word_processing.py`
(lines 167-182). -/
def calculate_word_frequency (nlp : String → List SpacyTok) (text : String)
    (min_length : ℕ) : List (String × ℕ) :=
counter (extract_words_from_text nlp text min_length)

/-! ## Analysis results and statistics -/

/-- `WordAnalysisResult` of `api/models/analysis.py`. -/
structure WordAnalysisResult where
  word : String
  frequency : ℕ
  grade_level : Option Int
  definition : Option String
  example_ : Option String
  subject : Option String
  category : WordCategory
deriving DecidableEq, Repr

/-- `GradeDistribution` of `api/models/analysis.py`. -/
structure GradeDistribution where
  grade_6 : ℚ
  grade_7 : ℚ
  grade_8 : ℚ
  grade_9 : ℚ
  grade_10 : ℚ
  grade_11 : ℚ
  grade_12 : ℚ
deriving DecidableEq, Repr

/-- `VocabularyStatistics` of `api/models/analysis.py`. -/
structure VocabularyStatistics where
  total_words : ℕ
  unique_words : ℕ
  analyzed_words : ℕ
  unknown_words : ℕ
  unknown_percentage : ℚ
  average_grade_level : Option ℚ
  below_grade_count : ℕ
  at_grade_count : ℕ
  above_grade_count : ℕ
deriving DecidableEq, Repr

/-- `VocabularyProfile` of `api/models/analysis.py`. -/
structure VocabularyProfile where
  student_grade_level : Int
  statistics : VocabularyStatistics
  grade_distribution : GradeDistribution
  challenging_words : List WordAnalysisResult
  word_details : List WordAnalysisResult
deriving DecidableEq, Repr

/-- Pydantic field validation of `WordAnalysisResult`: `frequency ≥ 1`,
`6 ≤ grade_level ≤ 12` when present (the `ℕ`-valued fields carry their
`ge=0` bounds by type). -/
def validResult (r : WordAnalysisResult) : Bool :=
decide (1 ≤ r.frequency) &&
  (match r.grade_level with
   | none => true
   | some g => decide (6 ≤ g) && decide (g ≤ 12))

/-- Pydantic field validation of `VocabularyStatistics`:
`0 ≤ unknown_percentage ≤ 1` and `6 ≤ average_grade_level ≤ 12` when
present. -/
def validStatistics (s : VocabularyStatistics) : Bool :=
decide (0 ≤ s.unknown_percentage) && decide (s.unknown_percentage ≤ 1) &&
  (match s.average_grade_level with
   | none => true
   | some a => decide (6 ≤ a) && decide (a ≤ 12))

/-- Pydantic field validation of `GradeDistribution`: each percentage in
`[0, 1]`. -/
def validDistribution (d : GradeDistribution) : Bool :=
decide (0 ≤ d.grade_6) && decide (d.grade_6 ≤ 1) &&
decide (0 ≤ d.grade_7) && decide (d.grade_7 ≤ 1) &&
decide (0 ≤ d.grade_8) && decide (d.grade_8 ≤ 1) &&
decide (0 ≤ d.grade_9) && decide (d.grade_9 ≤ 1) &&
decide (0 ≤ d.grade_10) && decide (d.grade_10 ≤ 1) &&
decide (0 ≤ d.grade_11) && decide (d.grade_11 ≤ 1) &&
decide (0 ≤ d.grade_12) && decide (d.grade_12 ≤ 1)

/-- Occurrences of grade `g` in the analysed grades:
`Counter(word_grades)[g]`. -/
def countGrade : List Int → Int → ℕ
  | [], _ => 0
  | x :: xs, g => (if x = g then 1 else 0) + countGrade xs g

/-- The `calculate_grade_distribution` function (lines 115-143). -/
def calculate_grade_distribution (word_grades : List Int) : GradeDistribution :=
if word_grades = [] then
  { grade_6 := 0, grade_7 := 0, grade_8 := 0, grade_9 := 0,
    grade_10 := 0, grade_11 := 0, grade_12 := 0 }
else
  let total : ℚ := word_grades.length
  let pct : Int → ℚ := fun g =>
    if 0 < word_grades.length then pyRound ((countGrade word_grades g : ℚ) / total) 4
    else 0
  { grade_6 := pct 6, grade_7 := pct 7, grade_8 := pct 8, grade_9 := pct 9,
    grade_10 := pct 10, grade_11 := pct 11, grade_12 := pct 12 }

/-- The `calculate_average_grade_level` function (lines 146-161). -/
def calculate_average_grade_level (word_grades : List Int) : Option ℚ :=
if word_grades = [] then none
else some (pyRound ((word_grades.sum : ℚ) / (word_grades.length : ℚ)) 1)

/-- One iteration of the `for word, frequency in word_frequency.items()` loop
of `analyze_vocabulary` (lines 219-257): look the word up, categorise it and
build its `WordAnalysisResult`. -/
def buildDetail (word_map : List (String × GradeInfo)) (student_grade_level : Int)
    (w : String) (frequency : ℕ) : WordAnalysisResult :=
let grade_info := wordMapLookup word_map (pyLower w)
let grade_level := grade_info.map (fun i => i.grade_level)
{ word := w, frequency := frequency, grade_level := grade_level,
  definition := grade_info.map (fun i => i.definition),
  example_ := grade_info.bind (fun i => i.example_),
  subject := grade_info.bind (fun i => i.subject),
  category := categorize_word grade_level student_grade_level }

/-- The `word_details` list accumulated by the loop. -/
def buildDetails (word_map : List (String × GradeInfo)) (student_grade_level : Int)
    (wf : List (String × ℕ)) : List WordAnalysisResult :=
wf.map (fun p => buildDetail word_map student_grade_level p.1 p.2)

/-- The `analyzed_grades` list accumulated by the loop: the grade level of
every word found in the word map, in iteration order. -/
def analyzedGrades (word_map : List (String × GradeInfo))
    (wf : List (String × ℕ)) : List Int :=
wf.filterMap (fun p => (wordMapLookup word_map (pyLower p.1)).map (fun i => i.grade_level))

/-- The `VocabularyStatistics` value built in step 4 of `analyze_vocabulary`
(lines 262-276); the category counters are the loop's `below_count` /
`at_count` / `above_count` / `unknown_count`. -/
def buildStatistics (wf : List (String × ℕ)) (word_map : List (String × GradeInfo))
    (student_grade_level : Int) : VocabularyStatistics :=
let word_details := buildDetails word_map student_grade_level wf
let ag := analyzedGrades word_map wf
let unknown_count := word_details.countP (fun r => decide (r.category = WordCategory.UNKNOWN))
{ total_words := (wf.map (fun p => p.2)).sum,
  unique_words := wf.length,
  analyzed_words := ag.length,
  unknown_words := unknown_count,
  unknown_percentage :=
    pyRound (if 0 < wf.length then (unknown_count : ℚ) / (wf.length : ℚ) else 0) 4,
  average_grade_level := calculate_average_grade_level ag,
  below_grade_count := word_details.countP (fun r => decide (r.category = WordCategory.BELOW)),
  at_grade_count := word_details.countP (fun r => decide (r.category = WordCategory.AT)),
  above_grade_count := word_details.countP (fun r => decide (r.category = WordCategory.ABOVE)) }

/-- The sort key of the `challenging_words.sort` call (line 260):
`(-x.grade_level if x.grade_level else 0, -x.frequency)`.  Python truthiness
makes `None` and `0` both map to `0`; since `-0 = 0` this is the same as
negating the grade level with default `0`. -/
def challengeKey (x : WordAnalysisResult) : Int × Int :=
((match x.grade_level with
  | none => 0
  | some g => -g), -(x.frequency : Int))

/-- Strict comparison of the sort keys (lexicographic on the pair). -/
def keyLt (a b : WordAnalysisResult) : Bool :=
decide ((challengeKey a).1 < (challengeKey b).1) ||
  (decide ((challengeKey a).1 = (challengeKey b).1) &&
    decide ((challengeKey a).2 < (challengeKey b).2))

/-- Insert an element coming from earlier in the original list into an
already-sorted list, before any element with an equal key. -/
def insertStable (x : WordAnalysisResult) : List WordAnalysisResult → List WordAnalysisResult
  | [] => [x]
  | y :: ys => if keyLt y x then y :: insertStable x ys else x :: y :: ys

/-- Stable ascending sort by `challengeKey`, modelling Python's stable
`list.sort(key=...)`.  Any stable sort with the same key computes the same
list, so insertion sort is an exact model of Timsort's result. -/
def sortStable : List WordAnalysisResult → List WordAnalysisResult
  | [] => []
  | x :: xs => insertStable x (sortStable xs)

/-- Immediate cause of an analysis failure, wrapped by the
`except Exception` handler at lines 297-299. -/
inductive FailureCause where
  | noWordsFound
  | lexiconFailure (e : LexiconError)
  | validationFailure (model : String)
deriving DecidableEq, Repr

/-- Errors an `analyze_vocabulary` call can surface.  The code only ever
produces `vocabularyAnalysisError` (lines 297-299 wrap every failure); the
`lexiconUnavailable` constructor exists so that the specification's claimed
behaviour — a lexicon failure propagated unchanged, unwrapped — is
expressible and can be compared against the code. -/
inductive AnalyzeError where
  | lexiconUnavailable (e : LexiconError)
  | vocabularyAnalysisError (cause : FailureCause)
deriving DecidableEq, Repr

/-- The `analyze_vocabulary` function (lines 164-299).  The caller-provided
text has already been reduced to `word_frequency`
(`calculate_word_frequency`'s output; the spaCy step needs the external
model).  Each pydantic model construction validates its declared field
bounds; a raised `ValidationError` — like every other exception — is caught
at lines 297-299 and surfaced as a `VocabularyAnalysisError`. -/
def analyze_vocabulary (word_frequency : List (String × ℕ)) (student_grade_level : Int)
    (session : Except LexiconError (List GradeWord)) :
    Except AnalyzeError VocabularyProfile :=
if word_frequency = [] then
  Except.error (AnalyzeError.vocabularyAnalysisError FailureCause.noWordsFound)
else
  match map_words_to_grades (word_frequency.map (fun p => p.1)) session with
  | Except.error e =>
    Except.error (AnalyzeError.vocabularyAnalysisError (FailureCause.lexiconFailure e))
  | Except.ok word_map =>
    let word_details := buildDetails word_map student_grade_level word_frequency
    if ¬ word_details.all validResult then
      Except.error (AnalyzeError.vocabularyAnalysisError
        (FailureCause.validationFailure "WordAnalysisResult"))
    else
      let statistics := buildStatistics word_frequency word_map student_grade_level
      if ¬ validStatistics statistics then
        Except.error (AnalyzeError.vocabularyAnalysisError
          (FailureCause.validationFailure "VocabularyStatistics"))
      else
        let grade_distribution :=
          calculate_grade_distribution (analyzedGrades word_map word_frequency)
        if ¬ validDistribution grade_distribution then
          Except.error (AnalyzeError.vocabularyAnalysisError
            (FailureCause.validationFailure "GradeDistribution"))
        else if ¬ (decide (6 ≤ student_grade_level) && decide (student_grade_level ≤ 12)) then
          Except.error (AnalyzeError.vocabularyAnalysisError
            (FailureCause.validationFailure "VocabularyProfile"))
        else
          Except.ok
            { student_grade_level := student_grade_level,
              statistics := statistics,
              grade_distribution := grade_distribution,
              challenging_words :=
                (sortStable (word_details.filter
                  (fun r => decide (r.category = WordCategory.ABOVE)))).take 20,
              word_details := word_details }

/-- The `generate_recommendations` function (lines 395-437).  Python's
`if stats.average_grade_level and ...` treats both `None` and `0.0` as
falsy. -/
def generate_recommendations (profile : VocabularyProfile) : List String :=
let stats := profile.statistics
let r1 : List String :=
  match stats.average_grade_level with
  | some a =>
    if a ≠ 0 ∧ a < (profile.student_grade_level : ℚ) - 1 then
      ["Consider providing vocabulary support - many words are below grade level"]
    else []
  | none => []
let r2 : List String :=
  if (stats.above_grade_count : ℚ) < (stats.analyzed_words : ℚ) * (1/10) then
    ["Consider introducing more grade-appropriate challenging vocabulary"]
  else []
let r3 : List String :=
  if (stats.above_grade_count : ℚ) > (stats.analyzed_words : ℚ) * (3/10) then
    ["Material may be quite challenging - consider vocabulary pre-teaching"]
  else []
let r4 : List String :=
  if stats.unknown_percentage > 3/10 then
    ["Many words not in standard lists - may include specialized or advanced vocabulary"]
  else []
let recommendations := r1 ++ r2 ++ r3 ++ r4
if recommendations = [] then ["Vocabulary usage appears appropriate for grade level"]
else recommendations

/-- The dictionary returned by `compare_to_grade_standard`. -/
structure ComparisonResult where
  student_grade : Int
  average_grade_level : Option ℚ
  performance : String
  proficiency_score : ℚ
  challenging_word_count : ℕ
  recommendations : List String
deriving DecidableEq, Repr

/-- The `compare_to_grade_standard` function (lines 349-392). -/
def compare_to_grade_standard (profile : VocabularyProfile) : ComparisonResult :=
let stats := profile.statistics
let proficiency_score : ℚ :=
  if 0 < stats.analyzed_words then
    pyRound (((stats.below_grade_count : ℚ) * (1/2) + (stats.at_grade_count : ℚ) * 1 +
      (stats.above_grade_count : ℚ) * (3/2)) / (stats.analyzed_words : ℚ)) 2
  else 0
let performance : String :=
  match stats.average_grade_level with
  | none => "unknown"
  | some a =>
    if a < (profile.student_grade_level : ℚ) - 1 then "below"
    else if a > (profile.student_grade_level : ℚ) + 1 then "advanced"
    else "on_level"
{ student_grade := profile.student_grade_level,
  average_grade_level := stats.average_grade_level,
  performance := performance,
  proficiency_score := proficiency_score,
  challenging_word_count := profile.challenging_words.length,
  recommendations := generate_recommendations profile }

/-! ## Specification-side definitions (for comparison with the code) -/

/-- The sum of the seven grade-distribution percentages. -/
def distSum (d : GradeDistribution) : ℚ :=
d.grade_6 + d.grade_7 + d.grade_8 + d.grade_9 + d.grade_10 + d.grade_11 + d.grade_12

/-- Spec-side reading of C5: the grade levels of the analysed (non-UNKNOWN)
unique words of a profile, each unique word once. -/
def specAnalyzedGradeLevels (p : VocabularyProfile) : List Int :=
p.word_details.filterMap
  (fun r => if r.category = WordCategory.UNKNOWN then none else r.grade_level)

/-- Spec-side reading of C6's ordering: descending grade level, ties by
descending frequency (absent grade levels read as 0, as the sort key does). -/
def challengingOrder (a b : WordAnalysisResult) : Prop :=
a.grade_level.getD 0 > b.grade_level.getD 0 ∨
  (a.grade_level.getD 0 = b.grade_level.getD 0 ∧ b.frequency ≤ a.frequency)

/-- Spec-side reading of C9 (spec §7): a lexicon provider failure is
propagated to the caller unchanged — not wrapped in another error type. -/
def specLexiconPropagation : Prop :=
∀ (wf : List (String × ℕ)) (sg : Int) (e : LexiconError),
  wf ≠ [] →
    analyze_vocabulary wf sg (Except.error e) = Except.error (AnalyzeError.lexiconUnavailable e)

/-! ## Concrete fixtures used by the witness theorems -/

/-- A lexicon offering the same word at grades 9 and 7 (different subjects). -/
def rowsFix : List GradeWord :=
[{ grade_level := 9, word := "zephyr", definition := "d9", example_ := none,
   subject := some "Science" },
 { grade_level := 7, word := "zephyr", definition := "d7", example_ := none,
   subject := some "ELA" }]

/-- A one-word frequency table (the word "cat" once). -/
def wfFix : List (String × ℕ) := [("cat", 1)]

/-- A one-row lexicon: "zenith" at grade 12. -/
def rowsFix2 : List GradeWord :=
[{ grade_level := 12, word := "zenith", definition := "dz", example_ := none, subject := none }]

/-- A one-word frequency table: "Zenith" twice (mixed case exercises the
lowercasing on lookup). -/
def wfFix2 : List (String × ℕ) := [("Zenith", 2)]

/-- The word map built from `rowsFix2`. -/
def wordMapFix2 : List (String × GradeInfo) :=
[("zenith", { grade_level := 12, definition := "dz", example_ := none, subject := none })]

/-- The analysis result for "Zenith" against `rowsFix2` and a grade-6
student. -/
def detailFix2 : WordAnalysisResult :=
{ word := "Zenith", frequency := 2, grade_level := some 12, definition := some "dz",
  example_ := none, subject := none, category := WordCategory.ABOVE }

/-- The profile `analyze_vocabulary` returns for `wfFix2` against `rowsFix2`
and a grade-6 student. -/
def profileFix2 : VocabularyProfile :=
{ student_grade_level := 6,
  statistics :=
    { total_words := 2, unique_words := 1, analyzed_words := 1, unknown_words := 0,
      unknown_percentage := 0, average_grade_level := some 12,
      below_grade_count := 0, at_grade_count := 0, above_grade_count := 1 },
  grade_distribution :=
    { grade_6 := 0, grade_7 := 0, grade_8 := 0, grade_9 := 0,
      grade_10 := 0, grade_11 := 0, grade_12 := 1 },
  challenging_words := [detailFix2],
  word_details := [detailFix2] }

/-! ## Theorems -/

theorem infoOfRow_grade (r : GradeWord) : (infoOfRow r).grade_level = r.grade_level := rfl

theorem abs_rhe_sub_le (x : ℚ) : |(rhe x : ℚ) - x| ≤ 1/2 := by
  have hfl : (⌊x⌋ : ℚ) ≤ x := Int.floor_le x
  have hfu : x < ⌊x⌋ + 1 := Int.lt_floor_add_one x
  unfold rhe
  split
  · rename_i h1
    rw [abs_le]
    constructor <;> linarith
  · rename_i h1
    split
    · rename_i h2
      rw [abs_le]
      push_cast
      constructor <;> linarith
    · rename_i h2
      have h3 : x - ⌊x⌋ = 1/2 := by
        have ha := not_lt.mp h1
        have hb := not_lt.mp h2
        linarith
      split <;> (rw [abs_le]; push_cast; constructor <;> linarith)

theorem le_rhe_of_le (m : ℤ) (x : ℚ) (h : (m : ℚ) ≤ x) : m ≤ rhe x := by
  have hm : m ≤ ⌊x⌋ := Int.le_floor.mpr h
  unfold rhe
  split
  · exact hm
  · split
    · omega
    · split <;> omega

theorem rhe_le_of_le (m : ℤ) (x : ℚ) (h : x ≤ (m : ℚ)) : rhe x ≤ m := by
  have hm : ⌊x⌋ ≤ m := by
    have h' := Int.floor_mono h
    rwa [Int.floor_intCast] at h'
  have hfl : (⌊x⌋ : ℚ) ≤ x := Int.floor_le x
  unfold rhe
  split
  · exact hm
  · rename_i h1
    have hfrac : 1/2 ≤ x - ⌊x⌋ := not_lt.mp h1
    have hlt : (⌊x⌋ : ℚ) < (m : ℚ) := by linarith
    have hlt' : ⌊x⌋ < m := by exact_mod_cast hlt
    split
    · omega
    · split <;> omega

theorem abs_pyRound_sub_le (q : ℚ) (n : ℕ) : |pyRound q n - q| ≤ 1 / (2 * 10 ^ n) := by
  have h10 : (0:ℚ) < 10 ^ n := by positivity
  have h := abs_rhe_sub_le (q * 10 ^ n)
  have key : pyRound q n - q = ((rhe (q * 10 ^ n) : ℚ) - q * 10 ^ n) / 10 ^ n := by
    unfold pyRound
    field_simp
    ring
  rw [key, abs_div, abs_of_pos h10, div_le_div_iff₀ h10 (by positivity)]
  calc |(rhe (q * 10 ^ n) : ℚ) - q * 10 ^ n| * (2 * 10 ^ n)
      ≤ (1/2) * (2 * 10 ^ n) := mul_le_mul_of_nonneg_right h (by positivity)
    _ = 1 * 10 ^ n := by ring

theorem rhe_intCast (m : ℤ) : rhe (m : ℚ) = m := by
  unfold rhe
  rw [Int.floor_intCast]
  have h : (m:ℚ) - m < 1/2 := by
    rw [sub_self]
    norm_num
  rw [if_pos h]

theorem pyRound_intCast (m : ℤ) (n : ℕ) : pyRound (m : ℚ) n = m := by
  unfold pyRound
  have h : (m:ℚ) * 10 ^ n = ((m * 10 ^ n : ℤ) : ℚ) := by push_cast; ring
  rw [h, rhe_intCast]
  have h10 : ((10:ℚ) ^ n) ≠ 0 := by positivity
  push_cast
  rw [mul_div_assoc, div_self h10, mul_one]

theorem pyRound_zero (n : ℕ) : pyRound 0 n = 0 := by
  have h := pyRound_intCast 0 n
  simpa using h

theorem pyRound_one (n : ℕ) : pyRound 1 n = 1 := by
  have h := pyRound_intCast 1 n
  simpa using h

theorem pyRound_twelve : pyRound 12 1 = 12 := by
  have h := pyRound_intCast 12 1
  norm_num at h
  exact h

theorem wordMapLookup_append (m : List (String × GradeInfo)) (k : String)
    (v : GradeInfo) (w : String) :
    wordMapLookup (m ++ [(k, v)]) w =
      match wordMapLookup m w with
      | some i => some i
      | none => if k = w then some v else none := by
  induction m with
  | nil => simp [wordMapLookup]
  | cons p ps ih =>
    by_cases hp : p.1 = w
    · simp [wordMapLookup, hp]
    · simp [wordMapLookup, hp, ih]

theorem wordMapLookup_replace (m : List (String × GradeInfo)) (key : String)
    (v : GradeInfo) (w : String) :
    wordMapLookup (m.map (fun p => if p.1 = key then (key, v) else p)) w =
      if w = key then (wordMapLookup m w).map (fun _ => v) else wordMapLookup m w := by
  induction m with
  | nil => simp [wordMapLookup]
  | cons p ps ih =>
    by_cases hpk : p.1 = key
    · have hpkey : (if p.1 = key then (key, v) else p) = (key, v) := if_pos hpk
      by_cases hwk : w = key
      · subst hwk
        simp [wordMapLookup, hpkey, hpk]
      · have hkw : ¬ key = w := fun h => hwk h.symm
        have hpw : ¬ p.1 = w := by rw [hpk]; exact hkw
        simp only [List.map_cons, hpkey, wordMapLookup, if_neg hkw, if_neg hpw, if_neg hwk]
        rw [ih, if_neg hwk]
    · simp only [List.map_cons, if_neg hpk, wordMapLookup]
      by_cases hpw : p.1 = w
      · have hwk : ¬ w = key := by rw [← hpw]; exact hpk
        simp [hpw, hwk]
      · simp only [if_neg hpw]
        exact ih

theorem wordMapLookup_insert_self (m : List (String × GradeInfo)) (r : GradeWord) :
    wordMapLookup (wordMapInsert m r) (pyLower r.word) =
      match wordMapLookup m (pyLower r.word) with
      | none => some (infoOfRow r)
      | some info =>
        if r.grade_level < info.grade_level then some (infoOfRow r) else some info := by
  unfold wordMapInsert
  cases h : wordMapLookup m (pyLower r.word) with
  | none =>
    simp only [h, wordMapLookup_append, h]
    simp
  | some info =>
    simp only [h]
    split
    · rename_i hlt
      rw [wordMapLookup_replace, if_pos rfl, h]
      rfl
    · exact h

theorem wordMapLookup_insert_other (m : List (String × GradeInfo)) (r : GradeWord)
    (w : String) (hw : ¬ pyLower r.word = w) :
    wordMapLookup (wordMapInsert m r) w = wordMapLookup m w := by
  unfold wordMapInsert
  cases h : wordMapLookup m (pyLower r.word) with
  | none =>
    simp only [h, wordMapLookup_append]
    cases h' : wordMapLookup m w with
    | none => simp [hw]
    | some i => simp
  | some info =>
    simp only [h]
    split
    · rw [wordMapLookup_replace, if_neg (fun hh => hw hh.symm)]
    · rfl

theorem mergeMin_assoc (a b c : Option Int) :
    mergeMin (mergeMin a b) c = mergeMin a (mergeMin b c) := by
  cases a <;> cases b <;> cases c <;> simp [mergeMin, min_assoc]

theorem lookupGrade_foldl (rows : List GradeWord) (m : List (String × GradeInfo)) (w : String) :
    (wordMapLookup (rows.foldl wordMapInsert m) w).map (fun i => i.grade_level) =
      mergeMin ((wordMapLookup m w).map (fun i => i.grade_level))
        (minOpt (matchingGrades rows w)) := by
  induction rows generalizing m with
  | nil =>
    cases h : wordMapLookup m w <;> simp [matchingGrades, minOpt, mergeMin, h]
  | cons r rs ih =>
    rw [List.foldl_cons, ih]
    by_cases hw : pyLower r.word = w
    · have hmatch : matchingGrades (r :: rs) w = r.grade_level :: matchingGrades rs w := by
        simp [matchingGrades, hw]
      rw [hmatch]
      have hstep : (wordMapLookup (wordMapInsert m r) w).map (fun i => i.grade_level) =
          mergeMin ((wordMapLookup m w).map (fun i => i.grade_level)) (some r.grade_level) := by
        subst hw
        rw [wordMapLookup_insert_self]
        cases h : wordMapLookup m (pyLower r.word) with
        | none => simp [mergeMin, infoOfRow]
        | some info =>
          simp only [Option.map_some', mergeMin]
          split
          · rename_i hlt
            simp only [Option.map_some', infoOfRow_grade, Option.some.injEq]
            omega
          · rename_i hlt
            simp only [Option.map_some', Option.some.injEq]
            omega
      rw [hstep]
      have hmin : minOpt (r.grade_level :: matchingGrades rs w) =
          mergeMin (some r.grade_level) (minOpt (matchingGrades rs w)) := by
        cases h : minOpt (matchingGrades rs w) <;> simp [minOpt, mergeMin, h]
      rw [hmin, mergeMin_assoc]
    · have hmatch : matchingGrades (r :: rs) w = matchingGrades rs w := by
        simp [matchingGrades, hw]
      rw [hmatch]
      rw [wordMapLookup_insert_other m r w hw]

theorem minOpt_eq_none_iff (l : List Int) : minOpt l = none ↔ l = [] := by
  cases l with
  | nil => simp [minOpt]
  | cons g gs =>
    simp only [minOpt]
    cases h : minOpt gs <;> simp

theorem minOpt_spec : ∀ (l : List Int) (g : Int), minOpt l = some g →
    g ∈ l ∧ ∀ x ∈ l, g ≤ x := by
  intro l
  induction l with
  | nil => intro g h; simp [minOpt] at h
  | cons a as ih =>
    intro g h
    simp only [minOpt] at h
    cases hm : minOpt as with
    | none =>
      rw [hm] at h
      have hnil : as = [] := (minOpt_eq_none_iff as).mp hm
      subst hnil
      simp only [Option.some.injEq] at h
      subst h
      simp
    | some m =>
      rw [hm] at h
      simp only [Option.some.injEq] at h
      obtain ⟨hmem, hbd⟩ := ih m hm
      subst h
      constructor
      · rcases le_total a m with hle | hle
        · rw [min_eq_left hle]
          exact List.mem_cons_self a as
        · rw [min_eq_right hle]
          exact List.mem_cons_of_mem a hmem
      · intro x hx
        rcases List.mem_cons.mp hx with hx | hx
        · rw [hx]
          exact min_le_left a m
        · exact le_trans (min_le_right a m) (hbd x hx)

theorem minOpt_perm {l l' : List Int} (h : l.Perm l') : minOpt l = minOpt l' := by
  cases hl : minOpt l with
  | none =>
    have : l = [] := (minOpt_eq_none_iff l).mp hl
    subst this
    have : l' = [] := h.nil_eq.symm
    subst this
    rfl
  | some g =>
    obtain ⟨hmem, hbd⟩ := minOpt_spec l g hl
    cases hl' : minOpt l' with
    | none =>
      have : l' = [] := (minOpt_eq_none_iff l').mp hl'
      subst this
      exact absurd (h.mem_iff.mp hmem) (List.not_mem_nil g)
    | some g' =>
      obtain ⟨hmem', hbd'⟩ := minOpt_spec l' g' hl'
      have h1 : g ≤ g' := hbd g' (h.mem_iff.mpr hmem')
      have h2 : g' ≤ g := hbd' g (h.mem_iff.mp hmem)
      rw [le_antisymm h1 h2]

theorem assignedGrade_eq (words : List String) (rows : List GradeWord) (w : String) :
    assignedGrade words rows w = minOpt (matchingGrades (selectRows words rows) w) := by
  unfold assignedGrade map_words_to_grades
  by_cases hW : words = []
  · subst hW
    simp [selectRows, matchingGrades, minOpt, wordMapLookup, List.filter]
  · rw [if_neg hW]
    simp only
    rw [lookupGrade_foldl]
    simp only [wordMapLookup, Option.map_none']
    rfl

theorem mem_matchingGrades {rows : List GradeWord} {w : String} {g : Int} :
    g ∈ matchingGrades rows w ↔ ∃ r ∈ rows, pyLower r.word = w ∧ r.grade_level = g := by
  unfold matchingGrades
  simp only [List.mem_filterMap]
  constructor
  · rintro ⟨r, hr, hsome⟩
    by_cases hw : pyLower r.word = w
    · rw [if_pos hw] at hsome
      exact ⟨r, hr, hw, Option.some.inj hsome⟩
    · rw [if_neg hw] at hsome
      exact absurd hsome (Option.noConfusion)
  · rintro ⟨r, hr, hw, hg⟩
    exact ⟨r, hr, by rw [if_pos hw, hg]⟩

/-- C2: when the lexicon offers the same word at several grade levels,
`map_words_to_grades` assigns the lowest of them; the assigned grade is
invariant under permutation of the rows the lexicon returns; and a word
present at grades 7 and 9 is categorised for a grade-8 student from grade 7,
hence BELOW. -/
theorem map_words_to_grades_lowest_grade :
    (∀ (words : List String) (rows rows' : List GradeWord) (w : String),
        rows.Perm rows' → assignedGrade words rows w = assignedGrade words rows' w) ∧
    (∀ (words : List String) (rows : List GradeWord) (w : String) (g : Int),
        assignedGrade words rows w = some g →
          (∃ r ∈ selectRows words rows, pyLower r.word = w ∧ r.grade_level = g) ∧
          ∀ r ∈ selectRows words rows, pyLower r.word = w → g ≤ r.grade_level) ∧
    (∀ (words : List String) (rows : List GradeWord) (w : String),
        (∃ r ∈ selectRows words rows, pyLower r.word = w ∧ r.grade_level = 7) →
        (∀ r ∈ selectRows words rows, pyLower r.word = w →
          r.grade_level = 7 ∨ r.grade_level = 9) →
        categorize_word (assignedGrade words rows w) 8 = WordCategory.BELOW) := by
  refine ⟨?_, ?_, ?_⟩
  · intro words rows rows' w hperm
    rw [assignedGrade_eq, assignedGrade_eq]
    exact minOpt_perm ((hperm.filter _).filterMap _)
  · intro words rows w g hg
    rw [assignedGrade_eq] at hg
    obtain ⟨hmem, hbd⟩ := minOpt_spec _ _ hg
    constructor
    · exact mem_matchingGrades.mp hmem
    · intro r hr hw
      exact hbd r.grade_level (mem_matchingGrades.mpr ⟨r, hr, hw, rfl⟩)
  · intro words rows w hex hall
    obtain ⟨r7, hr7, hw7, hg7⟩ := hex
    have h7mem : (7 : Int) ∈ matchingGrades (selectRows words rows) w :=
      mem_matchingGrades.mpr ⟨r7, hr7, hw7, hg7⟩
    rw [assignedGrade_eq]
    cases hmin : minOpt (matchingGrades (selectRows words rows) w) with
    | none =>
      have : matchingGrades (selectRows words rows) w = [] :=
        (minOpt_eq_none_iff _).mp hmin
      rw [this] at h7mem
      exact absurd h7mem (List.not_mem_nil 7)
    | some g =>
      obtain ⟨hmem, hbd⟩ := minOpt_spec _ _ hmin
      obtain ⟨r, hr, hw, hg⟩ := mem_matchingGrades.mp hmem
      have hle : g ≤ 7 := hbd 7 h7mem
      have hor : g = 7 ∨ g = 9 := hg ▸ hall r hr hw
      have hg7' : g = 7 := by omega
      subst hg7'
      simp [categorize_word]

/-- Witness for C2: on the concrete lexicon `rowsFix` the word "zephyr"
(grades 7 and 9) is BELOW for a grade-8 student. -/
theorem map_words_to_grades_lowest_grade_witness :
    categorize_word (assignedGrade ["Zephyr"] rowsFix "zephyr") 8 = WordCategory.BELOW :=
  map_words_to_grades_lowest_grade.2.2 ["Zephyr"] rowsFix "zephyr" (by decide) (by decide)

theorem categorize_ne_unknown (g sg : Int) :
    categorize_word (some g) sg ≠ WordCategory.UNKNOWN := by
  simp only [categorize_word]
  split
  · simp
  · split <;> simp

theorem buildDetails_cons (word_map : List (String × GradeInfo)) (sg : Int)
    (p : String × ℕ) (ps : List (String × ℕ)) :
    buildDetails word_map sg (p :: ps) =
      buildDetail word_map sg p.1 p.2 :: buildDetails word_map sg ps := rfl

theorem analyzedGrades_cons (word_map : List (String × GradeInfo))
    (p : String × ℕ) (ps : List (String × ℕ)) :
    analyzedGrades word_map (p :: ps) =
      match (wordMapLookup word_map (pyLower p.1)).map (fun i => i.grade_level) with
      | none => analyzedGrades word_map ps
      | some g => g :: analyzedGrades word_map ps := by
  cases h : (wordMapLookup word_map (pyLower p.1)).map (fun i => i.grade_level) <;>
    simp [analyzedGrades, List.filterMap_cons, h]

theorem buildDetail_category (word_map : List (String × GradeInfo)) (sg : Int)
    (w : String) (f : ℕ) :
    (buildDetail word_map sg w f).category =
      categorize_word ((wordMapLookup word_map (pyLower w)).map (fun i => i.grade_level)) sg :=
  rfl

theorem analyzedGrades_length (word_map : List (String × GradeInfo)) (sg : Int) :
    ∀ wf : List (String × ℕ),
      (analyzedGrades word_map wf).length +
        (buildDetails word_map sg wf).countP
          (fun r => decide (r.category = WordCategory.UNKNOWN)) = wf.length := by
  intro wf
  induction wf with
  | nil => simp [analyzedGrades, buildDetails]
  | cons p ps ih =>
    rw [buildDetails_cons, List.countP_cons, analyzedGrades_cons]
    cases h : wordMapLookup word_map (pyLower p.1) with
    | none =>
      have hcat : (buildDetail word_map sg p.1 p.2).category = WordCategory.UNKNOWN := by
        rw [buildDetail_category, h]
        rfl
      have e1 : decide ((buildDetail word_map sg p.1 p.2).category = WordCategory.UNKNOWN)
          = true := by
        rw [hcat]
        rfl
      simp only [h, Option.map_none', e1, List.length_cons]
      simp
      omega
    | some info =>
      have hcat : (buildDetail word_map sg p.1 p.2).category =
          categorize_word (some info.grade_level) sg := by
        rw [buildDetail_category, h]
        rfl
      have e1 : decide ((buildDetail word_map sg p.1 p.2).category = WordCategory.UNKNOWN)
          = false := by
        rw [hcat]
        exact decide_eq_false (categorize_ne_unknown info.grade_level sg)
      simp only [h, Option.map_some', e1, List.length_cons]
      simp
      omega

theorem counts_sum_analyzed (word_map : List (String × GradeInfo)) (sg : Int) :
    ∀ wf : List (String × ℕ),
      (buildDetails word_map sg wf).countP (fun r => decide (r.category = WordCategory.BELOW)) +
      (buildDetails word_map sg wf).countP (fun r => decide (r.category = WordCategory.AT)) +
      (buildDetails word_map sg wf).countP (fun r => decide (r.category = WordCategory.ABOVE)) =
        (analyzedGrades word_map wf).length := by
  intro wf
  induction wf with
  | nil => simp [analyzedGrades, buildDetails]
  | cons p ps ih =>
    rw [buildDetails_cons, List.countP_cons, List.countP_cons, List.countP_cons,
      analyzedGrades_cons]
    have hcat := buildDetail_category word_map sg p.1 p.2
    cases h : wordMapLookup word_map (pyLower p.1) with
    | none =>
      rw [h] at hcat
      have eB : decide ((buildDetail word_map sg p.1 p.2).category = WordCategory.BELOW)
          = false := by
        rw [hcat]
        rfl
      have eA : decide ((buildDetail word_map sg p.1 p.2).category = WordCategory.AT)
          = false := by
        rw [hcat]
        rfl
      have eAb : decide ((buildDetail word_map sg p.1 p.2).category = WordCategory.ABOVE)
          = false := by
        rw [hcat]
        rfl
      simp only [h, Option.map_none', eB, eA, eAb]
      simp
      omega
    | some info =>
      rw [h] at hcat
      simp only [Option.map_some'] at hcat
      cases hc : categorize_word (some info.grade_level) sg with
      | BELOW =>
        rw [hc] at hcat
        have eB : decide ((buildDetail word_map sg p.1 p.2).category = WordCategory.BELOW)
            = true := by rw [hcat]; rfl
        have eA : decide ((buildDetail word_map sg p.1 p.2).category = WordCategory.AT)
            = false := by rw [hcat]; rfl
        have eAb : decide ((buildDetail word_map sg p.1 p.2).category = WordCategory.ABOVE)
            = false := by rw [hcat]; rfl
        simp only [h, Option.map_some', eB, eA, eAb, List.length_cons]
        simp
        omega
      | AT =>
        rw [hc] at hcat
        have eB : decide ((buildDetail word_map sg p.1 p.2).category = WordCategory.BELOW)
            = false := by rw [hcat]; rfl
        have eA : decide ((buildDetail word_map sg p.1 p.2).category = WordCategory.AT)
            = true := by rw [hcat]; rfl
        have eAb : decide ((buildDetail word_map sg p.1 p.2).category = WordCategory.ABOVE)
            = false := by rw [hcat]; rfl
        simp only [h, Option.map_some', eB, eA, eAb, List.length_cons]
        simp
        omega
      | ABOVE =>
        rw [hc] at hcat
        have eB : decide ((buildDetail word_map sg p.1 p.2).category = WordCategory.BELOW)
            = false := by rw [hcat]; rfl
        have eA : decide ((buildDetail word_map sg p.1 p.2).category = WordCategory.AT)
            = false := by rw [hcat]; rfl
        have eAb : decide ((buildDetail word_map sg p.1 p.2).category = WordCategory.ABOVE)
            = true := by rw [hcat]; rfl
        simp only [h, Option.map_some', eB, eA, eAb, List.length_cons]
        simp
        omega
      | UNKNOWN => exact absurd hc (categorize_ne_unknown info.grade_level sg)

theorem filterMap_details_eq (word_map : List (String × GradeInfo)) (sg : Int) :
    ∀ wf : List (String × ℕ),
      (buildDetails word_map sg wf).filterMap
        (fun r => if r.category = WordCategory.UNKNOWN then none else r.grade_level) =
        analyzedGrades word_map wf := by
  intro wf
  induction wf with
  | nil => simp [analyzedGrades, buildDetails]
  | cons p ps ih =>
    rw [buildDetails_cons, List.filterMap_cons, analyzedGrades_cons]
    cases h : wordMapLookup word_map (pyLower p.1) with
    | none =>
      have hcat : (buildDetail word_map sg p.1 p.2).category = WordCategory.UNKNOWN := by
        rw [buildDetail_category, h]
        rfl
      have hhead : (fun r => if r.category = WordCategory.UNKNOWN then none else r.grade_level)
          (buildDetail word_map sg p.1 p.2) = (none : Option Int) := by
        simp [hcat]
      simp only [h, Option.map_none', hhead]
      exact ih
    | some info =>
      have hcat : (buildDetail word_map sg p.1 p.2).category =
          categorize_word (some info.grade_level) sg := by
        rw [buildDetail_category, h]
        rfl
      have hgr : (buildDetail word_map sg p.1 p.2).grade_level = some info.grade_level := by
        show (wordMapLookup word_map (pyLower p.1)).map (fun i => i.grade_level) = _
        rw [h]
        rfl
      have hne : ¬ (buildDetail word_map sg p.1 p.2).category = WordCategory.UNKNOWN := by
        rw [hcat]
        exact categorize_ne_unknown info.grade_level sg
      have hhead : (fun r => if r.category = WordCategory.UNKNOWN then none else r.grade_level)
          (buildDetail word_map sg p.1 p.2) = some info.grade_level := by
        simp only [if_neg hne]
        exact hgr
      simp only [h, Option.map_some', hhead, ih]

/-- Inversion of a successful `analyze_vocabulary` run: how the returned
profile was computed, and the checks it passed. -/
theorem analyze_ok (wf : List (String × ℕ)) (sg : Int)
    (session : Except LexiconError (List GradeWord)) (p : VocabularyProfile)
    (h : analyze_vocabulary wf sg session = Except.ok p) :
    ∃ word_map, map_words_to_grades (wf.map (fun q => q.1)) session = Except.ok word_map ∧
      p = { student_grade_level := sg,
            statistics := buildStatistics wf word_map sg,
            grade_distribution := calculate_grade_distribution (analyzedGrades word_map wf),
            challenging_words :=
              (sortStable ((buildDetails word_map sg wf).filter
                (fun r => decide (r.category = WordCategory.ABOVE)))).take 20,
            word_details := buildDetails word_map sg wf } ∧
      wf ≠ [] ∧ (6 ≤ sg ∧ sg ≤ 12) ∧ (buildDetails word_map sg wf).all validResult = true := by
  unfold analyze_vocabulary at h
  split at h
  · exact absurd h (by simp)
  · rename_i hne
    split at h
    · exact absurd h (by simp)
    · rename_i word_map hm
      simp only [] at h
      refine ⟨word_map, hm, ?_⟩
      split at h
      · exact absurd h (by simp)
      · rename_i hval
        split at h
        · exact absurd h (by simp)
        · split at h
          · exact absurd h (by simp)
          · split at h
            · exact absurd h (by simp)
            · rename_i hgrade
              rw [not_not] at hval
              simp only [Except.ok.injEq] at h
              rw [not_not, Bool.and_eq_true, decide_eq_true_eq, decide_eq_true_eq] at hgrade
              exact ⟨h.symm, hne, hgrade, hval⟩

/-- C3: whenever `analyze_vocabulary` returns a profile, the three category
counts partition the analysed words, and `unknown_words` equals
`unique_words - analyzed_words`. -/
theorem analyze_vocabulary_partition (wf : List (String × ℕ)) (sg : Int)
    (session : Except LexiconError (List GradeWord)) (p : VocabularyProfile)
    (h : analyze_vocabulary wf sg session = Except.ok p) :
    p.statistics.below_grade_count + p.statistics.at_grade_count +
        p.statistics.above_grade_count = p.statistics.analyzed_words ∧
    p.statistics.analyzed_words ≤ p.statistics.unique_words ∧
    p.statistics.unknown_words = p.statistics.unique_words - p.statistics.analyzed_words := by
  obtain ⟨word_map, hm, hp, hne, hsg, hval⟩ := analyze_ok wf sg session p h
  subst hp
  simp only [buildStatistics]
  refine ⟨counts_sum_analyzed word_map sg wf, ?_, ?_⟩
  · have := analyzedGrades_length word_map sg wf
    omega
  · have := analyzedGrades_length word_map sg wf
    omega

theorem calculate_average_fix2 : calculate_average_grade_level [12] = some 12 := by
  unfold calculate_average_grade_level
  rw [if_neg (by decide)]
  have hsum : ([12] : List Int).sum = 12 := rfl
  have hlen : ([12] : List Int).length = 1 := rfl
  rw [hsum, hlen]
  norm_num [pyRound_twelve]

theorem buildStatistics_fix2 : buildStatistics wfFix2 wordMapFix2 6 = profileFix2.statistics := by
  have hdet : buildDetails wordMapFix2 6 wfFix2 = [detailFix2] := by decide
  have hag : analyzedGrades wordMapFix2 wfFix2 = [12] := by decide
  have hcU : List.countP (fun r => decide (r.category = WordCategory.UNKNOWN)) [detailFix2]
      = 0 := by decide
  have hcB : List.countP (fun r => decide (r.category = WordCategory.BELOW)) [detailFix2]
      = 0 := by decide
  have hcA : List.countP (fun r => decide (r.category = WordCategory.AT)) [detailFix2]
      = 0 := by decide
  have hcAb : List.countP (fun r => decide (r.category = WordCategory.ABOVE)) [detailFix2]
      = 1 := by decide
  have hwlen : wfFix2.length = 1 := rfl
  have htot : (List.map (fun p => p.2) wfFix2).sum = 2 := rfl
  unfold buildStatistics
  simp only [hdet, hag, calculate_average_fix2, hcU, hcB, hcA, hcAb, hwlen, htot, profileFix2]
  simp only [VocabularyStatistics.mk.injEq]
  norm_num [pyRound_zero]

theorem calculate_grade_distribution_fix2 :
    calculate_grade_distribution [12] = profileFix2.grade_distribution := by
  unfold calculate_grade_distribution
  rw [if_neg (by decide)]
  have hc6 : countGrade [12] 6 = 0 := rfl
  have hc7 : countGrade [12] 7 = 0 := rfl
  have hc8 : countGrade [12] 8 = 0 := rfl
  have hc9 : countGrade [12] 9 = 0 := rfl
  have hc10 : countGrade [12] 10 = 0 := rfl
  have hc11 : countGrade [12] 11 = 0 := rfl
  have hc12 : countGrade [12] 12 = 1 := rfl
  have hlen : ([12] : List Int).length = 1 := rfl
  simp only [hc6, hc7, hc8, hc9, hc10, hc11, hc12, hlen, profileFix2]
  simp only [GradeDistribution.mk.injEq]
  norm_num [pyRound_zero, pyRound_one]

/-- Evaluation of the fixture run: "Zenith" (twice) against the grade-12
lexicon entry "zenith", for a grade-6 student. -/
theorem analyze_fix2 :
    analyze_vocabulary wfFix2 6 (Except.ok rowsFix2) = Except.ok profileFix2 := by
  have hm : map_words_to_grades (List.map (fun p => p.1) wfFix2) (Except.ok rowsFix2) =
      Except.ok wordMapFix2 := by decide
  have hdet : buildDetails wordMapFix2 6 wfFix2 = [detailFix2] := by decide
  have hag : analyzedGrades wordMapFix2 wfFix2 = [12] := by decide
  have hvs : validStatistics profileFix2.statistics = true := by
    norm_num [validStatistics, profileFix2]
  have hvd : validDistribution profileFix2.grade_distribution = true := by
    norm_num [validDistribution, profileFix2]
  have hch : (sortStable ([detailFix2].filter
      (fun r => decide (r.category = WordCategory.ABOVE)))).take 20 = [detailFix2] := by decide
  unfold analyze_vocabulary
  rw [if_neg (by decide : ¬ wfFix2 = [])]
  simp only [hm, hdet, hag, buildStatistics_fix2, calculate_grade_distribution_fix2]
  rw [if_neg (by decide : ¬ ¬ (List.all [detailFix2] validResult = true))]
  rw [if_neg (by simp [hvs])]
  rw [if_neg (by simp [hvd])]
  rw [if_neg (by decide : ¬ ¬ ((decide ((6:Int) ≤ 6) && decide ((6:Int) ≤ 12)) = true))]
  rw [hch]
  rfl

/-- Witness for C3 at a concrete run ("Zenith" twice, grade-6 student,
lexicon with "zenith" at grade 12). -/
theorem analyze_vocabulary_partition_witness :
    profileFix2.statistics.below_grade_count + profileFix2.statistics.at_grade_count +
        profileFix2.statistics.above_grade_count = profileFix2.statistics.analyzed_words ∧
    profileFix2.statistics.analyzed_words ≤ profileFix2.statistics.unique_words ∧
    profileFix2.statistics.unknown_words =
      profileFix2.statistics.unique_words - profileFix2.statistics.analyzed_words :=
  analyze_vocabulary_partition wfFix2 6 (Except.ok rowsFix2) profileFix2 analyze_fix2

theorem countGrade_total : ∀ (l : List Int), (∀ g ∈ l, 6 ≤ g ∧ g ≤ 12) →
    countGrade l 6 + countGrade l 7 + countGrade l 8 + countGrade l 9 +
      countGrade l 10 + countGrade l 11 + countGrade l 12 = l.length := by
  intro l
  induction l with
  | nil => intro h; rfl
  | cons x xs ih =>
    intro h
    have hx := h x (List.mem_cons_self x xs)
    have ih' := ih (fun g hg => h g (List.mem_cons_of_mem x hg))
    simp only [countGrade, List.length_cons]
    have hx1 := hx.1
    have hx2 := hx.2
    interval_cases x <;> simp <;> omega

/-- C4: for a nonempty list of word grades (all in the 6-12 range the
`grade_words` table declares) the seven rounded percentages of
`calculate_grade_distribution` sum to 1 within 1e-3; for the empty list all
seven are 0. -/
theorem calculate_grade_distribution_sums (word_grades : List Int) :
    (word_grades = [] → calculate_grade_distribution word_grades =
      { grade_6 := 0, grade_7 := 0, grade_8 := 0, grade_9 := 0,
        grade_10 := 0, grade_11 := 0, grade_12 := 0 }) ∧
    (word_grades ≠ [] → (∀ g ∈ word_grades, 6 ≤ g ∧ g ≤ 12) →
      |distSum (calculate_grade_distribution word_grades) - 1| ≤ 1/1000) := by
  constructor
  · intro h
    unfold calculate_grade_distribution
    rw [if_pos h]
  · intro hne hrange
    unfold calculate_grade_distribution distSum
    rw [if_neg hne]
    have hlen : 0 < word_grades.length := List.length_pos.mpr hne
    simp only [if_pos hlen]
    have ht0 : ((word_grades.length : ℚ)) ≠ 0 := by
      have hpos : (0:ℚ) < (word_grades.length : ℚ) := by exact_mod_cast hlen
      exact ne_of_gt hpos
    have key : ((countGrade word_grades 6 : ℚ)) / (word_grades.length : ℚ) +
        ((countGrade word_grades 7 : ℚ)) / (word_grades.length : ℚ) +
        ((countGrade word_grades 8 : ℚ)) / (word_grades.length : ℚ) +
        ((countGrade word_grades 9 : ℚ)) / (word_grades.length : ℚ) +
        ((countGrade word_grades 10 : ℚ)) / (word_grades.length : ℚ) +
        ((countGrade word_grades 11 : ℚ)) / (word_grades.length : ℚ) +
        ((countGrade word_grades 12 : ℚ)) / (word_grades.length : ℚ) = 1 := by
      have hc := countGrade_total word_grades hrange
      rw [div_add_div_same, div_add_div_same, div_add_div_same, div_add_div_same,
        div_add_div_same, div_add_div_same, div_eq_iff ht0, one_mul]
      exact_mod_cast hc
    have hB : (1:ℚ)/(2 * 10 ^ 4) = 1/20000 := by norm_num
    have b6 := abs_pyRound_sub_le ((countGrade word_grades 6 : ℚ) / (word_grades.length : ℚ)) 4
    have b7 := abs_pyRound_sub_le ((countGrade word_grades 7 : ℚ) / (word_grades.length : ℚ)) 4
    have b8 := abs_pyRound_sub_le ((countGrade word_grades 8 : ℚ) / (word_grades.length : ℚ)) 4
    have b9 := abs_pyRound_sub_le ((countGrade word_grades 9 : ℚ) / (word_grades.length : ℚ)) 4
    have b10 := abs_pyRound_sub_le ((countGrade word_grades 10 : ℚ) / (word_grades.length : ℚ)) 4
    have b11 := abs_pyRound_sub_le ((countGrade word_grades 11 : ℚ) / (word_grades.length : ℚ)) 4
    have b12 := abs_pyRound_sub_le ((countGrade word_grades 12 : ℚ) / (word_grades.length : ℚ)) 4
    rw [hB, abs_le] at b6 b7 b8 b9 b10 b11 b12
    rw [abs_le]
    constructor
    · linarith [key, b6.1, b7.1, b8.1, b9.1, b10.1, b11.1, b12.1]
    · linarith [key, b6.2, b7.2, b8.2, b9.2, b10.2, b11.2, b12.2]

/-- Witness for C4 at the singleton grade list `[9]`. -/
theorem calculate_grade_distribution_sums_witness :
    |distSum (calculate_grade_distribution [9]) - 1| ≤ 1/1000 :=
  (calculate_grade_distribution_sums [9]).2 (by decide) (by decide)

/-- C5: `average_grade_level` is the unweighted mean (rounded to one
decimal, Python semantics) of the grade levels of the analysed (non-UNKNOWN)
unique words of the returned profile — each unique word once, frequency
ignored — and it is `none` exactly when `analyzed_words = 0`. -/
theorem analyze_vocabulary_average (wf : List (String × ℕ)) (sg : Int)
    (session : Except LexiconError (List GradeWord)) (p : VocabularyProfile)
    (h : analyze_vocabulary wf sg session = Except.ok p) :
    (p.statistics.analyzed_words = 0 → p.statistics.average_grade_level = none) ∧
    (p.statistics.analyzed_words ≠ 0 → p.statistics.average_grade_level =
      some (pyRound (((specAnalyzedGradeLevels p).sum : ℚ) /
        ((specAnalyzedGradeLevels p).length : ℚ)) 1)) := by
  obtain ⟨word_map, hm, hp, hne, hsg, hval⟩ := analyze_ok wf sg session p h
  subst hp
  have hspec : specAnalyzedGradeLevels
      { student_grade_level := sg, statistics := buildStatistics wf word_map sg,
        grade_distribution := calculate_grade_distribution (analyzedGrades word_map wf),
        challenging_words := (sortStable ((buildDetails word_map sg wf).filter
          (fun r => decide (r.category = WordCategory.ABOVE)))).take 20,
        word_details := buildDetails word_map sg wf } = analyzedGrades word_map wf := by
    unfold specAnalyzedGradeLevels
    exact filterMap_details_eq word_map sg wf
  rw [hspec]
  simp only [buildStatistics]
  constructor
  · intro h0
    have hnil : analyzedGrades word_map wf = [] := List.length_eq_zero.mp h0
    unfold calculate_average_grade_level
    rw [if_pos hnil]
  · intro h0
    have hnil : analyzedGrades word_map wf ≠ [] := by
      intro hh
      apply h0
      rw [hh]
      rfl
    unfold calculate_average_grade_level
    rw [if_neg hnil]

/-- Witness for C5 at the fixture run. -/
theorem analyze_vocabulary_average_witness :
    (profileFix2.statistics.analyzed_words = 0 →
      profileFix2.statistics.average_grade_level = none) ∧
    (profileFix2.statistics.analyzed_words ≠ 0 →
      profileFix2.statistics.average_grade_level =
        some (pyRound (((specAnalyzedGradeLevels profileFix2).sum : ℚ) /
          ((specAnalyzedGradeLevels profileFix2).length : ℚ)) 1)) :=
  analyze_vocabulary_average wfFix2 6 (Except.ok rowsFix2) profileFix2 analyze_fix2

theorem challengeKey_fst (a : WordAnalysisResult) :
    (challengeKey a).1 = -(a.grade_level.getD 0) := by
  cases h : a.grade_level <;> simp [challengeKey, h]

theorem challengeKey_snd (a : WordAnalysisResult) :
    (challengeKey a).2 = -(a.frequency : Int) := rfl

theorem keyLt_eq_true_iff (a b : WordAnalysisResult) :
    keyLt a b = true ↔ ((challengeKey a).1 < (challengeKey b).1 ∨
      ((challengeKey a).1 = (challengeKey b).1 ∧ (challengeKey a).2 < (challengeKey b).2)) := by
  simp [keyLt, Bool.or_eq_true, Bool.and_eq_true, decide_eq_true_eq]

theorem keyLt_asymm (a b : WordAnalysisResult) (h : keyLt a b = true) : keyLt b a = false := by
  cases hba : keyLt b a with
  | false => rfl
  | true =>
    exfalso
    rw [keyLt_eq_true_iff] at h hba
    omega

theorem keyLt_neg_trans (x y z : WordAnalysisResult) (h1 : keyLt y x = false)
    (h2 : keyLt z y = false) : keyLt z x = false := by
  cases hzx : keyLt z x with
  | false => rfl
  | true =>
    exfalso
    rw [keyLt_eq_true_iff] at hzx
    have hyx : ¬ ((challengeKey y).1 < (challengeKey x).1 ∨
        ((challengeKey y).1 = (challengeKey x).1 ∧ (challengeKey y).2 < (challengeKey x).2)) := by
      rw [← keyLt_eq_true_iff]
      simp [h1]
    have hzy : ¬ ((challengeKey z).1 < (challengeKey y).1 ∨
        ((challengeKey z).1 = (challengeKey y).1 ∧ (challengeKey z).2 < (challengeKey y).2)) := by
      rw [← keyLt_eq_true_iff]
      simp [h2]
    omega

theorem insertStable_perm (x : WordAnalysisResult) (l : List WordAnalysisResult) :
    (insertStable x l).Perm (x :: l) := by
  induction l with
  | nil => exact List.Perm.refl _
  | cons y ys ih =>
    unfold insertStable
    split
    · exact (List.Perm.cons y ih).trans (List.Perm.swap x y ys)
    · exact List.Perm.refl _

theorem sortStable_perm (l : List WordAnalysisResult) : (sortStable l).Perm l := by
  induction l with
  | nil => exact List.Perm.refl _
  | cons x xs ih =>
    unfold sortStable
    exact (insertStable_perm x (sortStable xs)).trans (List.Perm.cons x ih)

theorem pairwise_insertStable (x : WordAnalysisResult) (l : List WordAnalysisResult)
    (hl : List.Pairwise (fun a b => keyLt b a = false) l) :
    List.Pairwise (fun a b => keyLt b a = false) (insertStable x l) := by
  induction l with
  | nil => simp [insertStable]
  | cons y ys ih =>
    obtain ⟨hy, hys⟩ := List.pairwise_cons.mp hl
    unfold insertStable
    split
    · rename_i hlt
      rw [List.pairwise_cons]
      constructor
      · intro z hz
        rcases List.mem_cons.mp ((insertStable_perm x ys).mem_iff.mp hz) with hzx | hzy
        · rw [hzx]
          exact keyLt_asymm y x hlt
        · exact hy z hzy
      · exact ih hys
    · rename_i hlt
      have hxf : keyLt y x = false := Bool.eq_false_iff.mpr hlt
      rw [List.pairwise_cons]
      constructor
      · intro z hz
        rcases List.mem_cons.mp hz with hzy | hzys
        · rw [hzy]
          exact hxf
        · exact keyLt_neg_trans x y z hxf (hy z hzys)
      · exact hl

theorem pairwise_sortStable (l : List WordAnalysisResult) :
    List.Pairwise (fun a b => keyLt b a = false) (sortStable l) := by
  induction l with
  | nil => exact List.Pairwise.nil
  | cons x xs ih => exact pairwise_insertStable x (sortStable xs) ih

theorem keyLt_false_implies_order (a b : WordAnalysisResult) (h : keyLt b a = false) :
    challengingOrder a b := by
  have hnot : ¬ ((challengeKey b).1 < (challengeKey a).1 ∨
      ((challengeKey b).1 = (challengeKey a).1 ∧ (challengeKey b).2 < (challengeKey a).2)) := by
    rw [← keyLt_eq_true_iff]
    simp [h]
  unfold challengingOrder
  rw [challengeKey_fst, challengeKey_fst, challengeKey_snd, challengeKey_snd] at hnot
  omega

theorem mem_buildDetails (word_map : List (String × GradeInfo)) (sg : Int)
    (wf : List (String × ℕ)) (r : WordAnalysisResult)
    (h : r ∈ buildDetails word_map sg wf) :
    r.category = categorize_word r.grade_level sg := by
  unfold buildDetails at h
  obtain ⟨q, hq, hr⟩ := List.mem_map.mp h
  rw [← hr]
  rfl

/-- C6: the returned `challenging_words` are exactly the ABOVE-category
results, stably sorted by descending grade level with ties by descending
frequency, truncated to the first 20. -/
theorem analyze_vocabulary_challenging (wf : List (String × ℕ)) (sg : Int)
    (session : Except LexiconError (List GradeWord)) (p : VocabularyProfile)
    (h : analyze_vocabulary wf sg session = Except.ok p) :
    p.challenging_words = (sortStable (p.word_details.filter
      (fun r => decide (r.category = WordCategory.ABOVE)))).take 20 ∧
    p.challenging_words.length ≤ 20 ∧
    (∀ r ∈ p.challenging_words, r.category = WordCategory.ABOVE ∧ r.grade_level ≠ none) ∧
    List.Pairwise challengingOrder p.challenging_words := by
  obtain ⟨word_map, hm, hp, hne, hsg, hval⟩ := analyze_ok wf sg session p h
  subst hp
  refine ⟨rfl, List.length_take_le 20 _, ?_, ?_⟩
  · intro r hr
    have hr1 : r ∈ sortStable ((buildDetails word_map sg wf).filter
        (fun r => decide (r.category = WordCategory.ABOVE))) :=
      List.take_subset 20 _ hr
    have hr2 : r ∈ (buildDetails word_map sg wf).filter
        (fun r => decide (r.category = WordCategory.ABOVE)) :=
      (sortStable_perm _).mem_iff.mp hr1
    obtain ⟨hmem, hpred⟩ := List.mem_filter.mp hr2
    have habove : r.category = WordCategory.ABOVE := of_decide_eq_true hpred
    refine ⟨habove, ?_⟩
    intro hnone
    have hcat := mem_buildDetails word_map sg wf r hmem
    rw [hnone] at hcat
    rw [habove] at hcat
    exact absurd hcat.symm (by simp [categorize_word])
  · have hp := pairwise_sortStable ((buildDetails word_map sg wf).filter
      (fun r => decide (r.category = WordCategory.ABOVE)))
    have hp' := hp.sublist (List.take_sublist 20 _)
    exact hp'.imp (fun hab => keyLt_false_implies_order _ _ hab)

/-- Witness for C6 at the fixture run. -/
theorem analyze_vocabulary_challenging_witness :
    profileFix2.challenging_words = (sortStable (profileFix2.word_details.filter
      (fun r => decide (r.category = WordCategory.ABOVE)))).take 20 ∧
    profileFix2.challenging_words.length ≤ 20 ∧
    (∀ r ∈ profileFix2.challenging_words,
      r.category = WordCategory.ABOVE ∧ r.grade_level ≠ none) ∧
    List.Pairwise challengingOrder profileFix2.challenging_words :=
  analyze_vocabulary_challenging wfFix2 6 (Except.ok rowsFix2) profileFix2 analyze_fix2

/-- C7: empty or whitespace-only text produces an empty word-frequency table
(`extract_words_from_text` lines 94-95 return `[]` before any processing),
and an empty table makes `analyze_vocabulary` abort with the error raised at
line 197 ("No words found in text after processing" — the failure mode the
spec calls `EmptyInputError`); `Except.error` means no partial profile is
ever returned. -/
theorem analyze_vocabulary_empty_input :
    (∀ (nlp : String → List SpacyTok) (text : String) (n : ℕ),
        isBlank text = true → calculate_word_frequency nlp text n = []) ∧
    (∀ (wf : List (String × ℕ)) (sg : Int) (session : Except LexiconError (List GradeWord)),
        wf = [] →
          analyze_vocabulary wf sg session =
            Except.error (AnalyzeError.vocabularyAnalysisError FailureCause.noWordsFound)) := by
  constructor
  · intro nlp text n hblank
    unfold calculate_word_frequency extract_words_from_text
    rw [if_pos hblank]
    rfl
  · intro wf sg session hwf
    unfold analyze_vocabulary
    rw [if_pos hwf]

/-- Witness for C7: whitespace-only text, and the empty table aborting. -/
theorem analyze_vocabulary_empty_input_witness :
    calculate_word_frequency (fun _ => []) "   " 3 = [] ∧
    analyze_vocabulary ([] : List (String × ℕ)) 8 (Except.ok []) =
      Except.error (AnalyzeError.vocabularyAnalysisError FailureCause.noWordsFound) :=
  ⟨analyze_vocabulary_empty_input.1 (fun _ => []) "   " 3 (by decide),
   analyze_vocabulary_empty_input.2 [] 8 (Except.ok []) rfl⟩

/-- C8: for any student grade outside [6, 12] the analysis never returns a
profile: every run fails (the pydantic `VocabularyProfile` bounds
`ge=6, le=12` reject the grade at construction, and the handler at lines
297-299 surfaces the failure — the failure mode the spec calls
`InvalidGradeError`). -/
theorem analyze_vocabulary_invalid_grade (wf : List (String × ℕ)) (sg : Int)
    (session : Except LexiconError (List GradeWord)) (h : sg < 6 ∨ 12 < sg) :
    ∃ e, analyze_vocabulary wf sg session = Except.error e := by
  cases hres : analyze_vocabulary wf sg session with
  | error e => exact ⟨e, rfl⟩
  | ok p =>
    exfalso
    obtain ⟨word_map, hm, hp, hne, hsg, hval⟩ := analyze_ok wf sg session p hres
    omega

/-- Witness for C8 at `student_grade = 13`. -/
theorem analyze_vocabulary_invalid_grade_witness :
    ∃ e, analyze_vocabulary wfFix 13 (Except.ok []) = Except.error e :=
  analyze_vocabulary_invalid_grade wfFix 13 (Except.ok []) (by decide)

/-- Counterexample to C9 as stated: on a concrete failing lexicon call the
error surfaced is the wrapping `VocabularyAnalysisError` (lines 297-299), not
the lexicon failure propagated unchanged; the spec-side propagation policy
`specLexiconPropagation` is false of the code. -/
theorem lexicon_error_wrapped_counterexample :
    analyze_vocabulary wfFix 8 (Except.error (LexiconError.unavailable "db down")) =
      Except.error (AnalyzeError.vocabularyAnalysisError
        (FailureCause.lexiconFailure (LexiconError.unavailable "db down"))) ∧
    analyze_vocabulary wfFix 8 (Except.error (LexiconError.unavailable "db down")) ≠
      Except.error (AnalyzeError.lexiconUnavailable (LexiconError.unavailable "db down")) ∧
    ¬ specLexiconPropagation := by
  refine ⟨by decide, by decide, ?_⟩
  intro hspec
  have hclaim := hspec wfFix 8 (LexiconError.unavailable "db down") (by decide)
  have hactual : analyze_vocabulary wfFix 8
      (Except.error (LexiconError.unavailable "db down")) =
      Except.error (AnalyzeError.vocabularyAnalysisError
        (FailureCause.lexiconFailure (LexiconError.unavailable "db down"))) := by decide
  rw [hactual] at hclaim
  exact absurd hclaim (by decide)

/-- C9 amended: a lexicon provider failure aborts the call — it is never
silently treated as "all words unknown" (no profile is returned) — and is
surfaced as the `VocabularyAnalysisError` wrapping the lexicon failure, the
original cause preserved. -/
theorem lexicon_error_propagation (wf : List (String × ℕ)) (sg : Int) (e : LexiconError) :
    (wf ≠ [] → analyze_vocabulary wf sg (Except.error e) =
      Except.error (AnalyzeError.vocabularyAnalysisError (FailureCause.lexiconFailure e))) ∧
    (∀ p, analyze_vocabulary wf sg (Except.error e) ≠ Except.ok p) := by
  have hwrap : wf ≠ [] → analyze_vocabulary wf sg (Except.error e) =
      Except.error (AnalyzeError.vocabularyAnalysisError (FailureCause.lexiconFailure e)) := by
    intro hne
    unfold analyze_vocabulary
    rw [if_neg hne]
    have hmap : map_words_to_grades (wf.map (fun q => q.1)) (Except.error e) =
        Except.error e := by
      unfold map_words_to_grades
      rw [if_neg (fun hh => hne (List.map_eq_nil_iff.mp hh))]
    simp only [hmap]
  refine ⟨hwrap, ?_⟩
  intro p hp
  by_cases hne : wf = []
  · subst hne
    unfold analyze_vocabulary at hp
    rw [if_pos rfl] at hp
    exact absurd hp (by simp)
  · rw [hwrap hne] at hp
    exact absurd hp (by simp)

/-- Witness for C9 (amended) at a concrete lexicon failure. -/
theorem lexicon_error_propagation_witness :
    analyze_vocabulary wfFix 8 (Except.error (LexiconError.unavailable "down")) =
      Except.error (AnalyzeError.vocabularyAnalysisError
        (FailureCause.lexiconFailure (LexiconError.unavailable "down"))) :=
  (lexicon_error_propagation wfFix 8 (LexiconError.unavailable "down")).1 (by decide)

/-- C10: under the partition invariant, `compare_to_grade_standard` computes
`round((0.5·below + 1.0·at + 1.5·above) / analyzed, 2)` when any word was
analysed — a value within `[0.5, 1.5]` — and `0.0` when none was. -/
theorem compare_to_grade_standard_proficiency (p : VocabularyProfile)
    (hpart : p.statistics.below_grade_count + p.statistics.at_grade_count +
      p.statistics.above_grade_count = p.statistics.analyzed_words) :
    (0 < p.statistics.analyzed_words →
      (compare_to_grade_standard p).proficiency_score =
        pyRound (((p.statistics.below_grade_count : ℚ) * (1/2) +
          (p.statistics.at_grade_count : ℚ) * 1 +
          (p.statistics.above_grade_count : ℚ) * (3/2)) /
            (p.statistics.analyzed_words : ℚ)) 2 ∧
      1/2 ≤ (compare_to_grade_standard p).proficiency_score ∧
      (compare_to_grade_standard p).proficiency_score ≤ 3/2) ∧
    (p.statistics.analyzed_words = 0 →
      (compare_to_grade_standard p).proficiency_score = 0) := by
  constructor
  · intro hpos
    have hscore : (compare_to_grade_standard p).proficiency_score =
        pyRound (((p.statistics.below_grade_count : ℚ) * (1/2) +
          (p.statistics.at_grade_count : ℚ) * 1 +
          (p.statistics.above_grade_count : ℚ) * (3/2)) /
            (p.statistics.analyzed_words : ℚ)) 2 := by
      unfold compare_to_grade_standard
      simp only [if_pos hpos]
    refine ⟨hscore, ?_, ?_⟩
    all_goals rw [hscore]
    all_goals
      have hn : (0:ℚ) < (p.statistics.analyzed_words : ℚ) := by exact_mod_cast hpos
      have hsum : (p.statistics.below_grade_count : ℚ) + (p.statistics.at_grade_count : ℚ) +
          (p.statistics.above_grade_count : ℚ) = (p.statistics.analyzed_words : ℚ) := by
        exact_mod_cast hpart
      have hb0 : (0:ℚ) ≤ (p.statistics.below_grade_count : ℚ) := Nat.cast_nonneg _
      have ha0 : (0:ℚ) ≤ (p.statistics.at_grade_count : ℚ) := Nat.cast_nonneg _
      have hab0 : (0:ℚ) ≤ (p.statistics.above_grade_count : ℚ) := Nat.cast_nonneg _
      have hq1 : 1/2 ≤ ((p.statistics.below_grade_count : ℚ) * (1/2) +
          (p.statistics.at_grade_count : ℚ) * 1 +
          (p.statistics.above_grade_count : ℚ) * (3/2)) /
            (p.statistics.analyzed_words : ℚ) := by
        rw [le_div_iff₀ hn]
        nlinarith
      have hq2 : ((p.statistics.below_grade_count : ℚ) * (1/2) +
          (p.statistics.at_grade_count : ℚ) * 1 +
          (p.statistics.above_grade_count : ℚ) * (3/2)) /
            (p.statistics.analyzed_words : ℚ) ≤ 3/2 := by
        rw [div_le_iff₀ hn]
        nlinarith
      unfold pyRound
    · have hlow : (50:ℤ) ≤ rhe (((p.statistics.below_grade_count : ℚ) * (1/2) +
          (p.statistics.at_grade_count : ℚ) * 1 +
          (p.statistics.above_grade_count : ℚ) * (3/2)) /
            (p.statistics.analyzed_words : ℚ) * 10 ^ 2) := by
        apply le_rhe_of_le
        push_cast
        nlinarith
      have hlow' : (50:ℚ) ≤ (rhe (((p.statistics.below_grade_count : ℚ) * (1/2) +
          (p.statistics.at_grade_count : ℚ) * 1 +
          (p.statistics.above_grade_count : ℚ) * (3/2)) /
            (p.statistics.analyzed_words : ℚ) * 10 ^ 2) : ℚ) := by
        exact_mod_cast hlow
      norm_num at hlow' ⊢
      linarith
    · have hhigh : rhe (((p.statistics.below_grade_count : ℚ) * (1/2) +
          (p.statistics.at_grade_count : ℚ) * 1 +
          (p.statistics.above_grade_count : ℚ) * (3/2)) /
            (p.statistics.analyzed_words : ℚ) * 10 ^ 2) ≤ (150:ℤ) := by
        apply rhe_le_of_le
        push_cast
        nlinarith
      have hhigh' : ((rhe (((p.statistics.below_grade_count : ℚ) * (1/2) +
          (p.statistics.at_grade_count : ℚ) * 1 +
          (p.statistics.above_grade_count : ℚ) * (3/2)) /
            (p.statistics.analyzed_words : ℚ) * 10 ^ 2)) : ℚ) ≤ (150:ℚ) := by
        exact_mod_cast hhigh
      norm_num at hhigh' ⊢
      linarith
  · intro h0
    unfold compare_to_grade_standard
    simp only [if_neg (by omega : ¬ 0 < p.statistics.analyzed_words)]

/-- Witness for C10 at the fixture profile (1 analysed word, all ABOVE). -/
theorem compare_to_grade_standard_proficiency_witness :
    (0 < profileFix2.statistics.analyzed_words →
      (compare_to_grade_standard profileFix2).proficiency_score =
        pyRound (((profileFix2.statistics.below_grade_count : ℚ) * (1/2) +
          (profileFix2.statistics.at_grade_count : ℚ) * 1 +
          (profileFix2.statistics.above_grade_count : ℚ) * (3/2)) /
            (profileFix2.statistics.analyzed_words : ℚ)) 2 ∧
      1/2 ≤ (compare_to_grade_standard profileFix2).proficiency_score ∧
      (compare_to_grade_standard profileFix2).proficiency_score ≤ 3/2) ∧
    (profileFix2.statistics.analyzed_words = 0 →
      (compare_to_grade_standard profileFix2).proficiency_score = 0) :=
  compare_to_grade_standard_proficiency profileFix2 (by decide)

/-- C1: `categorize_word` returns `UNKNOWN` exactly when the word grade is
absent, `BELOW` exactly when `word_grade < student_grade`, `AT` exactly on
equality, and `ABOVE` exactly when `word_grade > student_grade`. -/
theorem categorize_word_cases (wg : Option Int) (sg : Int) :
    (categorize_word wg sg = WordCategory.UNKNOWN ↔ wg = none) ∧
    (categorize_word wg sg = WordCategory.BELOW ↔ ∃ g, wg = some g ∧ g < sg) ∧
    (categorize_word wg sg = WordCategory.AT ↔ ∃ g, wg = some g ∧ g = sg) ∧
    (categorize_word wg sg = WordCategory.ABOVE ↔ ∃ g, wg = some g ∧ g > sg) := by
  cases wg with
  | none => simp [categorize_word]
  | some g =>
    simp only [categorize_word, Option.some.injEq]
    refine ⟨?_, ?_, ?_, ?_⟩
    · split
      · simp_all
      · split <;> simp_all
    · constructor
      · intro h
        refine ⟨g, rfl, ?_⟩
        by_contra hc
        simp only [if_neg hc] at h
        split at h <;> simp_all
      · rintro ⟨g', hg', hlt⟩
        cases hg'
        simp [if_pos hlt]
    · constructor
      · intro h
        refine ⟨g, rfl, ?_⟩
        split at h
        · simp_all
        · split at h <;> simp_all
      · rintro ⟨g', hg', heq⟩
        cases hg'
        subst heq
        simp [categorize_word]
    · constructor
      · intro h
        refine ⟨g, rfl, ?_⟩
        split at h
        · simp_all
        · split at h
          · simp_all
          · omega
      · rintro ⟨g', hg', hgt⟩
        cases hg'
        rw [if_neg (by omega), if_neg (by omega)]

end Vocab
